import Mathlib

/-!
Verification of the Forge Designer spec calculator (`ForgeDesigner.py`,
`calculate_forge_specs` and `calculate_steel_cuts`), shallowly embedded over ℚ.

Python 3 `round` is round-half-to-even on the exact value; it is modelled
here by `pyRound` (to an integer) and `pyRoundTo` (to `ndigits` decimals).
Machine floats are modelled by exact rationals; every numeric literal of the
source (0.5, 0.75, 0.85, 1.2, 1.25, ...) is exactly representable in ℚ.
The `generated_date` timestamp field (a side effect of `datetime.now()`) is
outside the pure calculation and is omitted from the record.
-/

/-- Python 3 `round(x)`: nearest integer, ties to even. -/
def pyRound (x : ℚ) : ℤ :=
  if x - ⌊x⌋ < 0.5 then ⌊x⌋
  else if 0.5 < x - ⌊x⌋ then ⌊x⌋ + 1
  else if ⌊x⌋ % 2 = 0 then ⌊x⌋ else ⌊x⌋ + 1

/-- Python 3 `round(x, ndigits)`: nearest multiple of `10 ^ (-ndigits)`, ties to even. -/
def pyRoundTo (ndigits : ℕ) (x : ℚ) : ℚ :=
  (pyRound (x * 10 ^ ndigits) : ℚ) / 10 ^ ndigits

-- Refractory properties (Kast-O-Lite 30 LI)
def REFRACTORY_DENSITY_LB_PER_CF : ℚ := 92
def REFRACTORY_BAG_SIZE_LB : ℚ := 55

-- Engineering constants
def BTU_PER_CUBIC_INCH : ℚ := 450
def HOLE_COVERAGE_CI : ℚ := 18
def MIN_BURNER_HOLES : ℤ := 12
def BURNER_ROWS : ℤ := 3
def HOLE_SPACING : ℚ := 0.75

-- Cost estimates (USD)
def COST_REFRACTORY_PER_BAG : ℚ := 110
def COST_BASE_MATERIALS : ℚ := 250

/-- Door configuration selected at the prompt: code 1 is front only,
code 2 is front and rear, code 3 is side loading. -/
inductive DoorConfig where
  | frontOnly
  | frontAndRear
  | sideLoading
deriving DecidableEq, Repr

/-- The validated input record handed to `calculate_forge_specs`. -/
structure ChamberInput where
  width : ℚ
  height : ℚ
  length : ℚ
  insulation : ℚ
  doorConfig : DoorConfig

/-- One steel-plate cut; the optional note records the door-cutout
width and height annotated on the front end panel. -/
structure PlateCut where
  name : String
  qty : ℕ
  w : ℚ
  h : ℚ
  thickness : String
  note : Option (ℚ × ℚ)

/-- One angle-iron cut. -/
structure AngleCut where
  name : String
  qty : ℕ
  length : ℚ
  size : String

/-- The steel cut list returned by `calculate_steel_cuts`. -/
structure SteelCuts where
  plates : List PlateCut
  angle_iron : List AngleCut

/-- The full specs record produced by `calculate_forge_specs`
(the `generated_date` timestamp is omitted, see the file comment). -/
structure ForgeSpecs where
  internal_w : ℚ
  internal_h : ℚ
  internal_l : ℚ
  insulation : ℚ
  door_config : DoorConfig
  internal_volume : ℚ
  external_w : ℚ
  external_h : ℚ
  external_l : ℚ
  burner_holes : ℤ
  holes_per_row : ℤ
  burner_rows : ℤ
  burner_length : ℚ
  burner_width : ℚ
  cfm_required : ℤ
  cfm_recommended : ℤ
  static_pressure : String
  refractory_bags : ℚ
  refractory_weight : ℚ
  blanket_sqft : ℚ
  ifb_floor : ℤ
  ifb_doors : ℤ
  front_door_w : ℚ
  front_door_h : ℚ
  rear_door_w : ℚ
  rear_door_h : ℚ
  steel_cuts : SteelCuts
  btu_required : ℤ
  estimated_cost : ℚ

/-- `calculate_steel_cuts(ext_w, ext_h, ext_l, door_w, door_h)`:
steel plate and angle-iron cut list based on dimensions. -/
def calculate_steel_cuts (ext_w ext_h ext_l door_w door_h : ℚ) : SteelCuts :=
  { plates := [
      { name := "Side Panels", qty := 2, w := ext_l, h := ext_h, thickness := "1/4\"", note := none },
      { name := "Top Panel", qty := 1, w := ext_l, h := ext_w, thickness := "1/4\"", note := none },
      { name := "Bottom Panel", qty := 1, w := ext_l, h := ext_w, thickness := "1/4\"", note := none },
      { name := "Front End Panel", qty := 1, w := ext_w, h := ext_h, thickness := "1/4\"",
        note := some (door_w, door_h) },
      { name := "Rear End Panel", qty := 1, w := ext_w, h := ext_h, thickness := "1/4\"", note := none }],
    angle_iron := [
      { name := "Corner Posts", qty := 4, length := ext_h, size := "2\" x 2\" x 1/8\"" },
      { name := "Top/Bottom Rails", qty := 8, length := ext_l - 4, size := "2\" x 2\" x 1/8\"" },
      { name := "End Rails", qty := 8, length := ext_w - 4, size := "2\" x 2\" x 1/8\"" }] }

/-- `calculate_forge_specs(user_input)`: all engineering specifications
from user input, transcribed line by line from `ForgeDesigner.py`. -/
def calculate_forge_specs (user_input : ChamberInput) : ForgeSpecs :=
  let w := user_input.width
  let h := user_input.height
  let l := user_input.length
  let ins := user_input.insulation
  let door_config := user_input.doorConfig
  -- Internal volume
  let internal_volume := w * h * l
  -- External dimensions (insulation on all sides + 1" for plates/frame)
  let ext_w := w + ins * 2 + 0.5
  let ext_h := h + ins * 2 + 0.5
  let ext_l := l + 1.0
  -- Burner calculations
  let total_holes0 := max MIN_BURNER_HOLES (pyRound (internal_volume / HOLE_COVERAGE_CI))
  let holes_per_row := pyRound ((total_holes0 : ℚ) / (BURNER_ROWS : ℚ))
  let total_holes := holes_per_row * BURNER_ROWS  -- ensure divisible by rows
  let burner_length := pyRoundTo 1 ((holes_per_row : ℚ) * HOLE_SPACING + 1.5)
  let burner_width : ℚ := 3.0
  -- Blower/CFM calculations
  let cfm_required := pyRound (internal_volume / HOLE_COVERAGE_CI * 1.2)
  let cfm_recommended := pyRound ((cfm_required : ℚ) * 1.25)
  let static_pressure := if internal_volume < 500 then "1.5" else "3.0"
  -- Refractory calculations
  let external_volume_ci := ext_w * ext_h * ext_l
  let refractory_volume_ci := external_volume_ci - internal_volume
  let refractory_volume_cf := refractory_volume_ci / 1728
  let refractory_weight_lb := refractory_volume_cf * REFRACTORY_DENSITY_LB_PER_CF
  let refractory_bags := pyRoundTo 1 (refractory_weight_lb / REFRACTORY_BAG_SIZE_LB)
  -- Door sizing (proportional to chamber)
  let front_door_w := pyRoundTo 1 (w * 0.85)
  let front_door_h := pyRoundTo 1 (h * 0.85)
  let rear_door_w := if door_config = DoorConfig.frontAndRear then pyRoundTo 1 (w * 0.7) else 0
  let rear_door_h := if door_config = DoorConfig.frontAndRear then pyRoundTo 1 (h * 0.75) else 0
  -- Steel cut list
  let steel_cuts := calculate_steel_cuts ext_w ext_h ext_l front_door_w front_door_h
  -- Cost estimation
  let estimated_cost := pyRoundTo 2 (COST_BASE_MATERIALS + refractory_bags * COST_REFRACTORY_PER_BAG)
  -- BTU estimation
  let btu_required := pyRound (internal_volume * BTU_PER_CUBIC_INCH)
  -- Ceramic blanket calculation (walls and ceiling)
  let blanket_sqft := pyRoundTo 1 ((ext_l * ext_h * 2 + ext_l * ext_w + ext_w * ext_h * 2) / 144)
  -- IFB count for floor and doors
  let ifb_floor_count := max 2 (pyRound (ext_l * ext_w / 72))
  let ifb_door_count : ℤ := if door_config = DoorConfig.frontOnly then 4 else 6
  { internal_w := w
    internal_h := h
    internal_l := l
    insulation := ins
    door_config := door_config
    internal_volume := internal_volume
    external_w := ext_w
    external_h := ext_h
    external_l := ext_l
    burner_holes := total_holes
    holes_per_row := holes_per_row
    burner_rows := BURNER_ROWS
    burner_length := burner_length
    burner_width := burner_width
    cfm_required := cfm_required
    cfm_recommended := cfm_recommended
    static_pressure := static_pressure
    refractory_bags := refractory_bags
    refractory_weight := pyRoundTo 1 refractory_weight_lb
    blanket_sqft := blanket_sqft
    ifb_floor := ifb_floor_count
    ifb_doors := ifb_door_count
    front_door_w := front_door_w
    front_door_h := front_door_h
    rear_door_w := rear_door_w
    rear_door_h := rear_door_h
    steel_cuts := steel_cuts
    btu_required := btu_required
    estimated_cost := estimated_cost }

/-- Python float division, which raises `ZeroDivisionError` on a zero divisor;
used by `calculate_forge_specsE` to model the only failure mode the
interpreter could raise inside the calculation. -/
def pydiv (a b : ℚ) : Except String ℚ :=
  if b = 0 then Except.error "ZeroDivisionError: float division by zero"
  else Except.ok (a / b)

/-- `calculate_forge_specs` with every division routed through `pydiv`,
so that reachability of an exception branch is expressible. -/
def calculate_forge_specsE (user_input : ChamberInput) : Except String ForgeSpecs := do
  let w := user_input.width
  let h := user_input.height
  let l := user_input.length
  let ins := user_input.insulation
  let door_config := user_input.doorConfig
  let internal_volume := w * h * l
  let ext_w := w + ins * 2 + 0.5
  let ext_h := h + ins * 2 + 0.5
  let ext_l := l + 1.0
  let cover1 ← pydiv internal_volume HOLE_COVERAGE_CI
  let total_holes0 := max MIN_BURNER_HOLES (pyRound cover1)
  let row_q ← pydiv (total_holes0 : ℚ) (BURNER_ROWS : ℚ)
  let holes_per_row := pyRound row_q
  let total_holes := holes_per_row * BURNER_ROWS
  let burner_length := pyRoundTo 1 ((holes_per_row : ℚ) * HOLE_SPACING + 1.5)
  let burner_width : ℚ := 3.0
  let cover2 ← pydiv internal_volume HOLE_COVERAGE_CI
  let cfm_required := pyRound (cover2 * 1.2)
  let cfm_recommended := pyRound ((cfm_required : ℚ) * 1.25)
  let static_pressure := if internal_volume < 500 then "1.5" else "3.0"
  let external_volume_ci := ext_w * ext_h * ext_l
  let refractory_volume_ci := external_volume_ci - internal_volume
  let refractory_volume_cf ← pydiv refractory_volume_ci 1728
  let refractory_weight_lb := refractory_volume_cf * REFRACTORY_DENSITY_LB_PER_CF
  let bags_q ← pydiv refractory_weight_lb REFRACTORY_BAG_SIZE_LB
  let refractory_bags := pyRoundTo 1 bags_q
  let front_door_w := pyRoundTo 1 (w * 0.85)
  let front_door_h := pyRoundTo 1 (h * 0.85)
  let rear_door_w := if door_config = DoorConfig.frontAndRear then pyRoundTo 1 (w * 0.7) else 0
  let rear_door_h := if door_config = DoorConfig.frontAndRear then pyRoundTo 1 (h * 0.75) else 0
  let steel_cuts := calculate_steel_cuts ext_w ext_h ext_l front_door_w front_door_h
  let estimated_cost := pyRoundTo 2 (COST_BASE_MATERIALS + refractory_bags * COST_REFRACTORY_PER_BAG)
  let btu_required := pyRound (internal_volume * BTU_PER_CUBIC_INCH)
  let blanket_q ← pydiv (ext_l * ext_h * 2 + ext_l * ext_w + ext_w * ext_h * 2) 144
  let blanket_sqft := pyRoundTo 1 blanket_q
  let floor_q ← pydiv (ext_l * ext_w) 72
  let ifb_floor_count := max 2 (pyRound floor_q)
  let ifb_door_count : ℤ := if door_config = DoorConfig.frontOnly then 4 else 6
  return { internal_w := w
           internal_h := h
           internal_l := l
           insulation := ins
           door_config := door_config
           internal_volume := internal_volume
           external_w := ext_w
           external_h := ext_h
           external_l := ext_l
           burner_holes := total_holes
           holes_per_row := holes_per_row
           burner_rows := BURNER_ROWS
           burner_length := burner_length
           burner_width := burner_width
           cfm_required := cfm_required
           cfm_recommended := cfm_recommended
           static_pressure := static_pressure
           refractory_bags := refractory_bags
           refractory_weight := pyRoundTo 1 refractory_weight_lb
           blanket_sqft := blanket_sqft
           ifb_floor := ifb_floor_count
           ifb_doors := ifb_door_count
           front_door_w := front_door_w
           front_door_h := front_door_h
           rear_door_w := rear_door_w
           rear_door_h := rear_door_h
           steel_cuts := steel_cuts
           btu_required := btu_required
           estimated_cost := estimated_cost }

/-- The input of the spec's concrete scenario A:
width 6, height 6, length 14, insulation 2, front door only. -/
def inputA : ChamberInput :=
  { width := 6, height := 6, length := 14, insulation := 2, doorConfig := DoorConfig.frontOnly }

/-- A small positive input whose external width is below 4 inches. -/
def inputSmall : ChamberInput :=
  { width := 1, height := 1, length := 1, insulation := 1, doorConfig := DoorConfig.frontOnly }

/-- The precondition of the calculator's contract: all four numeric
fields are positive (rationals are always finite). -/
def PosInput (i : ChamberInput) : Prop :=
  0 < i.width ∧ 0 < i.height ∧ 0 < i.length ∧ 0 < i.insulation

instance (i : ChamberInput) : Decidable (PosInput i) := by
  unfold PosInput; infer_instance

/-! ## Helper lemmas about `pyRound` -/

lemma floor_le_pyRound (x : ℚ) : ⌊x⌋ ≤ pyRound x := by
  unfold pyRound
  split_ifs <;> omega

lemma le_pyRound (n : ℤ) (x : ℚ) (h : (n : ℚ) ≤ x) : n ≤ pyRound x :=
  le_trans (Int.le_floor.mpr h) (floor_le_pyRound x)

/-! ## Claims -/

/-- Claim C1 (counterexample): the claimed output for width 6, height 6,
length 14, insulation 2, front door only is false: the claim asserts
`cfmRecommended = 43`, but the code computes `round(34 * 1.25) = round(42.5)
= 42` under round-half-to-even (likewise `burnerLength` is 8.2 not 8.3 and
`staticPressure` is "3.0" not "1.5"). -/
theorem claim_C1_counterexample :
    ¬ ((calculate_forge_specs inputA).internal_volume = 504 ∧
       (calculate_forge_specs inputA).burner_holes = 27 ∧
       (calculate_forge_specs inputA).holes_per_row = 9 ∧
       (calculate_forge_specs inputA).burner_length = 8.3 ∧
       (calculate_forge_specs inputA).cfm_required = 34 ∧
       (calculate_forge_specs inputA).cfm_recommended = 43 ∧
       (calculate_forge_specs inputA).static_pressure = "1.5" ∧
       (calculate_forge_specs inputA).front_door_w = 5.1 ∧
       (calculate_forge_specs inputA).front_door_h = 5.1) := by
  intro hc
  have h42 : (calculate_forge_specs inputA).cfm_recommended = 42 := by
    norm_num [calculate_forge_specs, inputA, pyRound, HOLE_COVERAGE_CI]
  have h43 := hc.2.2.2.2.2.1
  rw [h42] at h43
  norm_num at h43

/-- Claim C1 (amended): for width 6, height 6, length 14, insulation 2,
front door only, `calculate_forge_specs` returns internal volume 504,
27 burner holes, 9 holes per row, burner length 8.2, 34 CFM required,
42 CFM recommended, static pressure "3.0", and front door 5.1 × 5.1. -/
theorem claim_C1_amended :
    (calculate_forge_specs inputA).internal_volume = 504 ∧
    (calculate_forge_specs inputA).burner_holes = 27 ∧
    (calculate_forge_specs inputA).holes_per_row = 9 ∧
    (calculate_forge_specs inputA).burner_length = 8.2 ∧
    (calculate_forge_specs inputA).cfm_required = 34 ∧
    (calculate_forge_specs inputA).cfm_recommended = 42 ∧
    (calculate_forge_specs inputA).static_pressure = "3.0" ∧
    (calculate_forge_specs inputA).front_door_w = 5.1 ∧
    (calculate_forge_specs inputA).front_door_h = 5.1 := by
  refine ⟨?_, ?_, ?_, ?_, ?_, ?_, ?_, ?_, ?_⟩ <;>
    norm_num [calculate_forge_specs, inputA, pyRound, pyRoundTo,
      HOLE_COVERAGE_CI, MIN_BURNER_HOLES, BURNER_ROWS, HOLE_SPACING]

/-- Claim C2: for every positive input, the hole count is re-derived as
`holesPerRow × 3` with `holesPerRow = round(max(12, round(volume / 18)) / 3)`,
so the burner hole count is divisible by 3 and at least 12. -/
theorem claim_C2_burner_divisibility (i : ChamberInput) (hp : PosInput i) :
    (calculate_forge_specs i).holes_per_row =
      pyRound (((max 12 (pyRound ((calculate_forge_specs i).internal_volume / 18)) : ℤ) : ℚ) / 3) ∧
    (calculate_forge_specs i).burner_holes = (calculate_forge_specs i).holes_per_row * 3 ∧
    (calculate_forge_specs i).burner_holes % 3 = 0 ∧
    12 ≤ (calculate_forge_specs i).burner_holes := by
  have e : (calculate_forge_specs i).burner_holes =
      pyRound (((max 12 (pyRound (i.width * i.height * i.length / 18)) : ℤ) : ℚ) / 3) * 3 := rfl
  refine ⟨rfl, rfl, ?_, ?_⟩
  · rw [e]; omega
  · rw [e]
    have ht : (12 : ℤ) ≤ max 12 (pyRound (i.width * i.height * i.length / 18)) := le_max_left _ _
    have h12 : (12 : ℚ) ≤ ((max 12 (pyRound (i.width * i.height * i.length / 18)) : ℤ) : ℚ) := by
      exact_mod_cast ht
    have hq : ((4 : ℤ) : ℚ) ≤
        ((max 12 (pyRound (i.width * i.height * i.length / 18)) : ℤ) : ℚ) / 3 := by
      have h4q : ((4 : ℤ) : ℚ) = 4 := by norm_num
      rw [h4q]
      linarith
    have h4 := le_pyRound 4 _ hq
    omega

/-- Claim C2 witness: the divisibility property evaluated at scenario A. -/
theorem claim_C2_witness :
    PosInput inputA ∧
    ((calculate_forge_specs inputA).holes_per_row =
      pyRound (((max 12 (pyRound ((calculate_forge_specs inputA).internal_volume / 18)) : ℤ) : ℚ) / 3) ∧
    (calculate_forge_specs inputA).burner_holes = (calculate_forge_specs inputA).holes_per_row * 3 ∧
    (calculate_forge_specs inputA).burner_holes % 3 = 0 ∧
    12 ≤ (calculate_forge_specs inputA).burner_holes) :=
  ⟨by norm_num [PosInput, inputA],
   claim_C2_burner_divisibility inputA (by norm_num [PosInput, inputA])⟩

/-- Claim C3: for every positive input, `cfmRequired` is the rounding of the
raw coverage ratio times 1.2 (independent of the rounded hole count) and
`cfmRecommended = round(cfmRequired × 1.25)`, hence equals
`round(round(volume / 18 × 1.2) × 1.25)`. -/
theorem claim_C3_cfm (i : ChamberInput) (hp : PosInput i) :
    (calculate_forge_specs i).cfm_required =
      pyRound ((calculate_forge_specs i).internal_volume / 18 * 1.2) ∧
    (calculate_forge_specs i).cfm_recommended =
      pyRound (((calculate_forge_specs i).cfm_required : ℚ) * 1.25) ∧
    (calculate_forge_specs i).cfm_recommended =
      pyRound ((pyRound ((calculate_forge_specs i).internal_volume / 18 * 1.2) : ℚ) * 1.25) :=
  ⟨rfl, rfl, rfl⟩

/-- Claim C3 witness: the CFM chain evaluated at scenario A. -/
theorem claim_C3_witness :
    PosInput inputA ∧
    ((calculate_forge_specs inputA).cfm_required =
      pyRound ((calculate_forge_specs inputA).internal_volume / 18 * 1.2) ∧
    (calculate_forge_specs inputA).cfm_recommended =
      pyRound (((calculate_forge_specs inputA).cfm_required : ℚ) * 1.25) ∧
    (calculate_forge_specs inputA).cfm_recommended =
      pyRound ((pyRound ((calculate_forge_specs inputA).internal_volume / 18 * 1.2) : ℚ) * 1.25)) :=
  ⟨by norm_num [PosInput, inputA], claim_C3_cfm inputA (by norm_num [PosInput, inputA])⟩

/-- Claim C4: for every positive input, the static pressure is exactly "1.5"
when the internal volume is below 500 and exactly "3.0" otherwise; no other
value occurs, and volume exactly 500 yields "3.0". -/
theorem claim_C4_static_pressure (i : ChamberInput) (hp : PosInput i) :
    ((calculate_forge_specs i).static_pressure = "1.5" ∨
      (calculate_forge_specs i).static_pressure = "3.0") ∧
    ((calculate_forge_specs i).internal_volume < 500 →
      (calculate_forge_specs i).static_pressure = "1.5") ∧
    (¬ (calculate_forge_specs i).internal_volume < 500 →
      (calculate_forge_specs i).static_pressure = "3.0") ∧
    ((calculate_forge_specs i).internal_volume = 500 →
      (calculate_forge_specs i).static_pressure = "3.0") := by
  have e : (calculate_forge_specs i).static_pressure =
      if (calculate_forge_specs i).internal_volume < 500 then "1.5" else "3.0" := rfl
  by_cases hv : (calculate_forge_specs i).internal_volume < 500
  · rw [e, if_pos hv]
    refine ⟨Or.inl rfl, fun _ => rfl, fun hn => absurd hv hn, fun h500 => ?_⟩
    rw [h500] at hv
    exact absurd hv (lt_irrefl _)
  · rw [e, if_neg hv]
    exact ⟨Or.inr rfl, fun hlt => absurd hlt hv, fun _ => rfl, fun _ => rfl⟩

/-- Claim C4 witness: the static-pressure step function evaluated at
scenario A (volume 504, not below 500, hence "3.0"). -/
theorem claim_C4_witness :
    PosInput inputA ∧
    (((calculate_forge_specs inputA).static_pressure = "1.5" ∨
      (calculate_forge_specs inputA).static_pressure = "3.0") ∧
    ((calculate_forge_specs inputA).internal_volume < 500 →
      (calculate_forge_specs inputA).static_pressure = "1.5") ∧
    (¬ (calculate_forge_specs inputA).internal_volume < 500 →
      (calculate_forge_specs inputA).static_pressure = "3.0") ∧
    ((calculate_forge_specs inputA).internal_volume = 500 →
      (calculate_forge_specs inputA).static_pressure = "3.0")) :=
  ⟨by norm_num [PosInput, inputA],
   claim_C4_static_pressure inputA (by norm_num [PosInput, inputA])⟩

/-- Claim C5: the calculator is total — for every input with positive
dimensions (and any of the three door configurations), the division-checked
variant reaches no error branch and returns the fully populated record. -/
theorem claim_C5_total (i : ChamberInput) (hp : PosInput i) :
    calculate_forge_specsE i = Except.ok (calculate_forge_specs i) := rfl

/-- Claim C5 witness: totality evaluated at scenario A. -/
theorem claim_C5_witness :
    PosInput inputA ∧
    calculate_forge_specsE inputA = Except.ok (calculate_forge_specs inputA) :=
  ⟨by norm_num [PosInput, inputA], claim_C5_total inputA (by norm_num [PosInput, inputA])⟩

/-- Claim C6: for every positive input, the refractory quantities follow the
shell volume: bags are `round(shellVolume / 1728 × 92 / 55, 1)` and weight is
`round(shellVolume / 1728 × 92, 1)` with density 92 lb/ft³ and 55 lb bags. -/
theorem claim_C6_refractory (i : ChamberInput) (hp : PosInput i) :
    (calculate_forge_specs i).refractory_bags =
      pyRoundTo 1 (((calculate_forge_specs i).external_w * (calculate_forge_specs i).external_h *
        (calculate_forge_specs i).external_l - (calculate_forge_specs i).internal_volume)
        / 1728 * 92 / 55) ∧
    (calculate_forge_specs i).refractory_weight =
      pyRoundTo 1 (((calculate_forge_specs i).external_w * (calculate_forge_specs i).external_h *
        (calculate_forge_specs i).external_l - (calculate_forge_specs i).internal_volume)
        / 1728 * 92) :=
  ⟨rfl, rfl⟩

/-- Claim C6 witness: the refractory formulas evaluated at scenario A. -/
theorem claim_C6_witness :
    PosInput inputA ∧
    ((calculate_forge_specs inputA).refractory_bags =
      pyRoundTo 1 (((calculate_forge_specs inputA).external_w * (calculate_forge_specs inputA).external_h *
        (calculate_forge_specs inputA).external_l - (calculate_forge_specs inputA).internal_volume)
        / 1728 * 92 / 55) ∧
    (calculate_forge_specs inputA).refractory_weight =
      pyRoundTo 1 (((calculate_forge_specs inputA).external_w * (calculate_forge_specs inputA).external_h *
        (calculate_forge_specs inputA).external_l - (calculate_forge_specs inputA).internal_volume)
        / 1728 * 92)) :=
  ⟨by norm_num [PosInput, inputA], claim_C6_refractory inputA (by norm_num [PosInput, inputA])⟩

/-- Claim C7: for every positive input, the front door is 85% of the chamber
width/height rounded to one decimal; the rear door is 70%/75% when the
configuration is front-and-rear, and exactly zero for every other
configuration. -/
theorem claim_C7_doors (i : ChamberInput) (hp : PosInput i) :
    (calculate_forge_specs i).front_door_w = pyRoundTo 1 (i.width * 0.85) ∧
    (calculate_forge_specs i).front_door_h = pyRoundTo 1 (i.height * 0.85) ∧
    (i.doorConfig = DoorConfig.frontAndRear →
      (calculate_forge_specs i).rear_door_w = pyRoundTo 1 (i.width * 0.7) ∧
      (calculate_forge_specs i).rear_door_h = pyRoundTo 1 (i.height * 0.75)) ∧
    (i.doorConfig ≠ DoorConfig.frontAndRear →
      (calculate_forge_specs i).rear_door_w = 0 ∧
      (calculate_forge_specs i).rear_door_h = 0) := by
  have ew : (calculate_forge_specs i).rear_door_w =
      if i.doorConfig = DoorConfig.frontAndRear then pyRoundTo 1 (i.width * 0.7) else 0 := rfl
  have eh : (calculate_forge_specs i).rear_door_h =
      if i.doorConfig = DoorConfig.frontAndRear then pyRoundTo 1 (i.height * 0.75) else 0 := rfl
  refine ⟨rfl, rfl, fun hd => ⟨?_, ?_⟩, fun hd => ⟨?_, ?_⟩⟩
  · rw [ew, if_pos hd]
  · rw [eh, if_pos hd]
  · rw [ew, if_neg hd]
  · rw [eh, if_neg hd]

/-- Claim C7 witness: the door sizing evaluated at scenario A. -/
theorem claim_C7_witness :
    PosInput inputA ∧
    ((calculate_forge_specs inputA).front_door_w = pyRoundTo 1 (inputA.width * 0.85) ∧
    (calculate_forge_specs inputA).front_door_h = pyRoundTo 1 (inputA.height * 0.85) ∧
    (inputA.doorConfig = DoorConfig.frontAndRear →
      (calculate_forge_specs inputA).rear_door_w = pyRoundTo 1 (inputA.width * 0.7) ∧
      (calculate_forge_specs inputA).rear_door_h = pyRoundTo 1 (inputA.height * 0.75)) ∧
    (inputA.doorConfig ≠ DoorConfig.frontAndRear →
      (calculate_forge_specs inputA).rear_door_w = 0 ∧
      (calculate_forge_specs inputA).rear_door_h = 0)) :=
  ⟨by norm_num [PosInput, inputA], claim_C7_doors inputA (by norm_num [PosInput, inputA])⟩

/-- Claim C8: for every positive input, the external envelope is computed
exactly, with no rounding: width and height gain twice the insulation plus
half an inch, the length gains one inch. -/
theorem claim_C8_envelope (i : ChamberInput) (hp : PosInput i) :
    (calculate_forge_specs i).external_w = i.width + 2 * i.insulation + 0.5 ∧
    (calculate_forge_specs i).external_h = i.height + 2 * i.insulation + 0.5 ∧
    (calculate_forge_specs i).external_l = i.length + 1.0 := by
  refine ⟨?_, ?_, rfl⟩
  · have e : (calculate_forge_specs i).external_w = i.width + i.insulation * 2 + 0.5 := rfl
    rw [e]; ring
  · have e : (calculate_forge_specs i).external_h = i.height + i.insulation * 2 + 0.5 := rfl
    rw [e]; ring

/-- Claim C8 witness: the envelope formulas evaluated at scenario A. -/
theorem claim_C8_witness :
    PosInput inputA ∧
    ((calculate_forge_specs inputA).external_w = inputA.width + 2 * inputA.insulation + 0.5 ∧
    (calculate_forge_specs inputA).external_h = inputA.height + 2 * inputA.insulation + 0.5 ∧
    (calculate_forge_specs inputA).external_l = inputA.length + 1.0) :=
  ⟨by norm_num [PosInput, inputA], claim_C8_envelope inputA (by norm_num [PosInput, inputA])⟩

/-- Claim C9: for every positive input, side-loading produces exactly the
same record as front-only except for the echoed door configuration and the
door fire-brick count, which is 6 for side loading and 4 for front only. -/
theorem claim_C9_sideloading (w h l ins : ℚ)
    (hp : PosInput ⟨w, h, l, ins, DoorConfig.sideLoading⟩) :
    calculate_forge_specs ⟨w, h, l, ins, DoorConfig.sideLoading⟩ =
      { calculate_forge_specs ⟨w, h, l, ins, DoorConfig.frontOnly⟩ with
        door_config := DoorConfig.sideLoading, ifb_doors := 6 } ∧
    (calculate_forge_specs ⟨w, h, l, ins, DoorConfig.sideLoading⟩).ifb_doors = 6 ∧
    (calculate_forge_specs ⟨w, h, l, ins, DoorConfig.frontOnly⟩).ifb_doors = 4 :=
  ⟨rfl, rfl, rfl⟩

/-- Claim C9 witness: the side-loading/front-only comparison evaluated at
the scenario A dimensions. -/
theorem claim_C9_witness :
    PosInput ⟨6, 6, 14, 2, DoorConfig.sideLoading⟩ ∧
    (calculate_forge_specs ⟨6, 6, 14, 2, DoorConfig.sideLoading⟩ =
      { calculate_forge_specs ⟨6, 6, 14, 2, DoorConfig.frontOnly⟩ with
        door_config := DoorConfig.sideLoading, ifb_doors := 6 } ∧
    (calculate_forge_specs ⟨6, 6, 14, 2, DoorConfig.sideLoading⟩).ifb_doors = 6 ∧
    (calculate_forge_specs ⟨6, 6, 14, 2, DoorConfig.frontOnly⟩).ifb_doors = 4) :=
  ⟨by norm_num [PosInput], claim_C9_sideloading 6 6 14 2 (by norm_num [PosInput])⟩

/-- Claim C10: the cut list applies no lower bound: whenever the external
width is below 4 inches, the "End Rails" entry carries the negative length
`externalWidth - 4` (and the "Top/Bottom Rails" entry carries
`externalLength - 4`, negative whenever the external length is below 4),
with no guard. -/
theorem claim_C10_negative_rails (i : ChamberInput) (hp : PosInput i)
    (hw : (calculate_forge_specs i).external_w < 4) :
    ({ name := "End Rails", qty := 8, length := (calculate_forge_specs i).external_w - 4,
       size := "2\" x 2\" x 1/8\"" } : AngleCut) ∈
      (calculate_forge_specs i).steel_cuts.angle_iron ∧
    (calculate_forge_specs i).external_w - 4 < 0 ∧
    ({ name := "Top/Bottom Rails", qty := 8, length := (calculate_forge_specs i).external_l - 4,
       size := "2\" x 2\" x 1/8\"" } : AngleCut) ∈
      (calculate_forge_specs i).steel_cuts.angle_iron ∧
    ((calculate_forge_specs i).external_l < 4 → (calculate_forge_specs i).external_l - 4 < 0) := by
  have e : (calculate_forge_specs i).steel_cuts.angle_iron =
      [{ name := "Corner Posts", qty := 4, length := (calculate_forge_specs i).external_h,
         size := "2\" x 2\" x 1/8\"" },
       { name := "Top/Bottom Rails", qty := 8, length := (calculate_forge_specs i).external_l - 4,
         size := "2\" x 2\" x 1/8\"" },
       { name := "End Rails", qty := 8, length := (calculate_forge_specs i).external_w - 4,
         size := "2\" x 2\" x 1/8\"" }] := rfl
  refine ⟨?_, by linarith, ?_, fun hl => by linarith⟩
  · rw [e]
    exact List.mem_cons_of_mem _ (List.mem_cons_of_mem _ (List.mem_cons_self _ _))
  · rw [e]
    exact List.mem_cons_of_mem _ (List.mem_cons_self _ _)

/-- Claim C10 witness: at width 1, height 1, length 1, insulation 1 the
external width is 3.5, so the emitted end-rail length is negative. -/
theorem claim_C10_witness :
    PosInput inputSmall ∧ (calculate_forge_specs inputSmall).external_w < 4 ∧
    (({ name := "End Rails", qty := 8, length := (calculate_forge_specs inputSmall).external_w - 4,
        size := "2\" x 2\" x 1/8\"" } : AngleCut) ∈
      (calculate_forge_specs inputSmall).steel_cuts.angle_iron ∧
    (calculate_forge_specs inputSmall).external_w - 4 < 0 ∧
    ({ name := "Top/Bottom Rails", qty := 8,
       length := (calculate_forge_specs inputSmall).external_l - 4,
       size := "2\" x 2\" x 1/8\"" } : AngleCut) ∈
      (calculate_forge_specs inputSmall).steel_cuts.angle_iron ∧
    ((calculate_forge_specs inputSmall).external_l < 4 →
      (calculate_forge_specs inputSmall).external_l - 4 < 0)) :=
  ⟨by norm_num [PosInput, inputSmall],
   by norm_num [calculate_forge_specs, inputSmall],
   claim_C10_negative_rails inputSmall (by norm_num [PosInput, inputSmall])
     (by norm_num [calculate_forge_specs, inputSmall])⟩
